import Mathlib

/-!
Verification of the arc request-pipeline engine: a shallow embedding of
the analytics plugin middleware (classifier, validateOp, validateACL,
Recorder, recordResponse) and the users plugin patch handlers, translated
from the Go source, together with theorems settling the specification
claims.
-/

namespace Arc

/-! ## Basic capability types (internal/types/op, internal/types/acl) -/

/-- op.Operation: closed set of request operations. -/
inductive Operation where
  | read
  | write
  | delete
deriving DecidableEq, Repr

/-- Modelled from the spec: op.Operation.String() renders the operation
name in lower case, as in the 403-scenario message "does not have
'delete' op access". -/
def Operation.str : Operation → String
  | .read => "read"
  | .write => "write"
  | .delete => "delete"

/-- acl.ACL: closed set of resource categories. -/
inductive ACL where
  | user
  | permission
  | analytics
  | search
  | reindex
  | clusterAcl
deriving DecidableEq, Repr

/-- Modelled from the spec: acl.ACL.String() renders the category name in
lower case. -/
def ACL.str : ACL → String
  | .user => "user"
  | .permission => "permission"
  | .analytics => "analytics"
  | .search => "search"
  | .reindex => "reindex"
  | .clusterAcl => "cluster"

/-- op.Contains(ops, op): membership of an operation in a slice. -/
def opContains (ops : List Operation) (o : Operation) : Bool :=
  ops.contains o

/-- acl.Contains(acls, acl): membership of an acl in a slice. -/
def aclContains (acls : List ACL) (a : ACL) : Bool :=
  acls.contains a

/-- category.Category: closed set of user categories (internal/types/category). -/
inductive Category where
  | catUser
  | catPermission
  | catAnalytics
  | catSearch
  | catReindex
  | catCluster
deriving DecidableEq, Repr

/-- Modelled from the spec: the name of each category, used in the
ValidateCategories error message identifying the invalid category. -/
def Category.str : Category → String
  | .catUser => "user"
  | .catPermission => "permission"
  | .catAnalytics => "analytics"
  | .catSearch => "search"
  | .catReindex => "reindex"
  | .catCluster => "cluster"

/-- Modelled from the spec: the fixed category-to-acl mapping table; every
element of a principal's categories must be admitted by the acl this
table assigns to it (e.g. category user requires the User acl). -/
def categoryACL : Category → ACL
  | .catUser => .user
  | .catPermission => .permission
  | .catAnalytics => .analytics
  | .catSearch => .search
  | .catReindex => .reindex
  | .catCluster => .clusterAcl

/-! ## Principal model (internal/types/user) -/

/-- user.User: the authenticated principal with its capability sets. -/
structure User where
  userId : String
  isAdmin : Bool
  acls : List ACL
  ops : List Operation
  categories : List Category
  indices : List String
  email : String
deriving DecidableEq, Repr

/-! ## Request-scoped context (context.WithValue / ctx.Value) -/

/-- The context keys used by the middleware: acl.CtxKey, op.CtxKey,
user.CtxKey, index.CtxKey. -/
inductive CtxKey where
  | aclKey
  | opKey
  | userKey
  | indexKey
deriving DecidableEq, Repr

/-- A dynamically typed context value as stored by context.WithValue. The
otherVal constructor stands for a stored value of any type other than the
one the reading middleware asserts. -/
inductive CtxVal where
  | aclVal (a : ACL)
  | opVal (o : Operation)
  | userVal (u : User)
  | indicesVal (xs : List String)
  | otherVal (tag : String)
deriving DecidableEq, Repr

/-- A request context: an association of keys to stored values.
ctx.Value(k) returns the first binding (later WithValue calls prepend). -/
abbrev Ctx := List (CtxKey × CtxVal)

/-- ctx.Value(key): nil (none) when the key is absent. -/
def ctxValue (ctx : Ctx) (k : CtxKey) : Option CtxVal :=
  (List.find? (fun p => p.1 = k) ctx).map (fun p => p.2)

/-- context.WithValue: prepend a binding (shadows earlier ones). -/
def ctxWith (ctx : Ctx) (k : CtxKey) (v : CtxVal) : Ctx :=
  (k, v) :: ctx

/-! ## HTTP model -/

/-- An HTTP header list; Go's http.Header with canonicalized keys. -/
abbrev Headers := List (String × String)

/-- http.Header.Get: first value for the key, empty string when absent. -/
def headerGet (hs : Headers) (k : String) : String :=
  match List.find? (fun p => p.1 = k) hs with
  | some p => p.2
  | none => ""

/-- http.Header.Set: replace any existing values for the key. -/
def headerSet (hs : Headers) (k : String) (v : String) : Headers :=
  (k, v) :: List.filter (fun p => ¬ p.1 = k) hs

/-- The parts of *http.Request the middleware reads. -/
structure Request where
  method : String
  requestURI : String
  headers : Headers
  ctx : Ctx
  remoteIp : String

/-- The response as observed by the client: status, headers, body bytes
(modelled as a string). -/
structure Response where
  status : Nat
  headers : Headers
  body : String
deriving DecidableEq, Repr

/-- A downstream http.HandlerFunc, modelled as a pure function from the
request to the response it writes. -/
def Handler := Request → Response

/-- util.WriteBackMessage(w, msg, status): modelled from the spec error
envelope as a response carrying the status and the message as its body. -/
def writeBackMessage (msg : String) (status : Nat) : Response :=
  { status := status, headers := [], body := msg }

/-- util.WriteBackError(w, msg, status): modelled from the spec error
envelope, same shape as writeBackMessage. -/
def writeBackError (msg : String) (status : Nat) : Response :=
  { status := status, headers := [], body := msg }

/-- The outcome of running a middleware-wrapped handler: either a response
is written, or the goroutine panics (a failed unchecked type assertion). -/
inductive Outcome where
  | resp (r : Response)
  | panicked
deriving DecidableEq, Repr

/-- The single-quote character used in the Go format strings. -/
def quoteChar : String := Char.toString (Char.ofNat 39)

/-! ## classifier (middleware.go lines 227-254) -/

/-- The method-to-operation mapping of the classifier middleware:
the switch on r.Method. -/
def classifyOp (method : String) : Operation :=
  match method with
  | "GET" => Operation.read
  | "POST" => Operation.write
  | "PUT" => Operation.write
  | "PATCH" => Operation.write
  | "DELETE" => Operation.delete
  | _ => Operation.read

/-- classifier: sets the analytics acl and the classified operation into
the request context, then calls the next handler. -/
def classifier (h : Handler) (r : Request) : Response :=
  let operation := classifyOp r.method
  let ctx := ctxWith (ctxWith r.ctx CtxKey.aclKey (CtxVal.aclVal ACL.analytics))
      CtxKey.opKey (CtxVal.opVal operation)
  h { r with ctx := ctx }

/-! ## validateOp and validateACL (middleware.go lines 262-319) -/

/-- The message written by validateOp when the user lacks the operation. -/
def opFailMsg (u : User) (o : Operation) : String :=
  "user with user_id=" ++ u.userId ++ " does not have " ++ quoteChar ++
    o.str ++ quoteChar ++ " op access"

/-- The message written by validateACL when the user lacks the analytics acl. -/
def aclFailMsg (u : User) : String :=
  "user with \"user_id\"=\"" ++ u.userId ++ "\" does not have " ++ quoteChar ++
    ACL.analytics.str ++ quoteChar ++ " acl"

/-- validateOp: requires *user.User and *op.Operation in the request
context. A nil context value yields a 500 response; a present value of the
wrong dynamic type panics (unchecked type assertion in the source). When
the user lacks the operation it writes the failure message with
http.StatusUnauthorized (401); otherwise it calls the next handler. -/
def validateOp (h : Handler) (r : Request) : Outcome :=
  match ctxValue r.ctx CtxKey.userKey with
  | none => Outcome.resp (writeBackMessage "Internal server error" 500)
  | some v =>
    match v with
    | CtxVal.userVal u =>
      match ctxValue r.ctx CtxKey.opKey with
      | none => Outcome.resp (writeBackMessage "Internal server error" 500)
      | some w =>
        match w with
        | CtxVal.opVal operation =>
          if opContains u.ops operation then Outcome.resp (h r)
          else Outcome.resp (writeBackMessage (opFailMsg u operation) 401)
        | _ => Outcome.panicked
    | _ => Outcome.panicked

/-- validateACL: requires *user.User in the request context. A nil context
value yields a 500 response; a wrong dynamic type panics. When the user
lacks the analytics acl it writes the failure message with
http.StatusUnauthorized (401); otherwise it calls the next handler. -/
def validateACL (h : Handler) (r : Request) : Outcome :=
  match ctxValue r.ctx CtxKey.userKey with
  | none => Outcome.resp (writeBackMessage "Internal server error" 500)
  | some v =>
    match v with
    | CtxVal.userVal u =>
      if aclContains u.acls ACL.analytics then Outcome.resp (h r)
      else Outcome.resp (writeBackMessage (aclFailMsg u) 401)
    | _ => Outcome.panicked

/-! ## String utilities (models of strings.Contains, strconv, and the
header parsers), implemented by structural recursion on character lists
so that concrete inputs evaluate in the kernel. -/

/-- Whether the first list is an initial segment of the second. -/
def leadsList : List Char → List Char → Bool
  | [], _ => true
  | _ :: _, [] => false
  | a :: as, b :: bs => a = b && leadsList as bs

/-- Whether pat occurs as a contiguous sublist of s. -/
def containsList (pat : List Char) : List Char → Bool
  | [] => leadsList pat []
  | b :: bs => leadsList pat (b :: bs) || containsList pat bs

/-- strings.Contains(s, pat). -/
def strContains (s pat : String) : Bool :=
  containsList pat.data s.data

/-- Whitespace characters trimmed by strings.TrimSpace (ASCII subset). -/
def isSpaceChar (c : Char) : Bool :=
  c = ' ' || c = '\t' || c = '\n' || c = '\r'

/-- strings.TrimSpace over a character list. -/
def trimList (l : List Char) : List Char :=
  ((l.dropWhile isSpaceChar).reverse.dropWhile isSpaceChar).reverse

/-- Split a character list on a separator character; always non-empty. -/
def splitOnChar (c : Char) : List Char → List (List Char)
  | [] => [[]]
  | x :: xs =>
    let r := splitOnChar c xs
    if x = c then [] :: r
    else
      match r with
      | [] => [[x]]
      | y :: ys => (x :: y) :: ys

/-- Split a character list at its first colon, when one occurs. -/
def splitAtColon : List Char → Option (List Char × List Char)
  | [] => none
  | x :: xs =>
    if x = ':' then some ([], xs)
    else (splitAtColon xs).map (fun p => (x :: p.1, p.2))

/-- Insert a key-value pair, replacing an earlier occurrence of the key
(last occurrence wins, as in a Go map assignment). -/
def upsert (acc : List (String × String)) (k v : String) : List (String × String) :=
  List.filter (fun p => ¬ p.1 = k) acc ++ [(k, v)]

/-- Modelled from the spec: the filter/custom-event header parser. The
header is a comma-separated list of key:value entries; whitespace is
trimmed; entries missing a colon are dropped; duplicate keys retain the
last occurrence. -/
def parse (h : String) : List (String × String) :=
  (splitOnChar ',' h.data).foldl
    (fun acc e =>
      match splitAtColon e with
      | none => acc
      | some p => upsert acc (String.mk (trimList p.1)) (String.mk (trimList p.2)))
    []

/-- strconv.ParseBool: accepts exactly these string forms. -/
def goParseBool (s : String) : Option Bool :=
  if s = "1" || s = "t" || s = "T" || s = "TRUE" || s = "true" || s = "True" then
    some true
  else if s = "0" || s = "f" || s = "F" || s = "FALSE" || s = "false" || s = "False" then
    some false
  else none

/-- The numeric value of a decimal digit character. -/
def digitVal (c : Char) : Option Nat :=
  if '0' ≤ c ∧ c ≤ '9' then some (c.toNat - '0'.toNat) else none

/-- Parse a non-empty string of decimal digits. -/
def parseDigits : List Char → Option Nat
  | [] => none
  | l => go l 0
where
  go : List Char → Nat → Option Nat
  | [], acc => some acc
  | c :: cs, acc =>
    match digitVal c with
    | some d => go cs (acc * 10 + d)
    | none => none

/-- strconv.Atoi: optional sign followed by decimal digits (the int64
overflow bound is not modelled; the claims do not reach it). -/
def goAtoi (s : String) : Option Int :=
  match s.data with
  | [] => none
  | '+' :: rest => (parseDigits rest).map Int.ofNat
  | '-' :: rest => (parseDigits rest).map (fun n => -(n : Int))
  | l => (parseDigits l).map Int.ofNat

/-! ## JSON model for the elasticsearch response body.

The recorder reads the captured response body, performs the byte-level
renames _source to source, _type to type, _id to id, and unmarshals the
result. The body is modelled here as the abstract JSON document after
those renames; json.Unmarshal into the Go structs is modelled by the
decoders below, following encoding/json semantics: unknown keys are
ignored, a JSON null leaves the zero value, and a type mismatch is an
error that aborts the record. -/

/-- An abstract JSON value. -/
inductive Json where
  | null
  | boolJ (b : Bool)
  | num (n : Int)
  | str (s : String)
  | arr (xs : List Json)
  | obj (fields : List (String × Json))

/-- Field lookup in a JSON object. -/
def jsonLookup (k : String) (fs : List (String × Json)) : Option Json :=
  (List.find? (fun p => p.1 = k) fs).map (fun p => p.2)

/-- One hit of the searchResponse struct: Source, Type, Id. -/
structure Hit where
  source : List (String × Json)
  hitType : String
  hitId : String

/-- The Hits member of searchResponse: Total and the hit list. -/
structure HitsObj where
  total : Int
  hits : List Hit

/-- searchResponse (middleware.go lines 35-45): Took and Hits. -/
structure SearchResp where
  took : Int
  hits : HitsObj

/-- The zero value of searchResponse. -/
def defaultSearchResp : SearchResp :=
  { took := 0, hits := { total := 0, hits := [] } }

/-- Decode a JSON value into a Go string field (zero value on null). -/
def decodeStrField : Json → Except String String
  | Json.str s => Except.ok s
  | Json.null => Except.ok ""
  | _ => Except.error "cannot unmarshal into string"

/-- Decode a JSON value into a Go numeric field (zero value on null). -/
def decodeNumField : Json → Except String Int
  | Json.num n => Except.ok n
  | Json.null => Except.ok 0
  | _ => Except.error "cannot unmarshal into number"

/-- Decode one hit object of the response. -/
def decodeHit : Json → Except String Hit
  | Json.obj fs => do
    let src ←
      match jsonLookup "source" fs with
      | none => Except.ok []
      | some Json.null => Except.ok []
      | some (Json.obj m) => Except.ok m
      | some _ => Except.error "cannot unmarshal into map"
    let t ←
      match jsonLookup "type" fs with
      | none => Except.ok ""
      | some j => decodeStrField j
    let i ←
      match jsonLookup "id" fs with
      | none => Except.ok ""
      | some j => decodeStrField j
    Except.ok { source := src, hitType := t, hitId := i }
  | Json.null => Except.ok { source := [], hitType := "", hitId := "" }
  | _ => Except.error "cannot unmarshal into hit"

/-- Decode the Hits member of searchResponse. -/
def decodeHitsObj : Json → Except String HitsObj
  | Json.obj fs => do
    let total ←
      match jsonLookup "total" fs with
      | none => Except.ok 0
      | some j => decodeNumField j
    let hs ←
      match jsonLookup "hits" fs with
      | none => Except.ok []
      | some Json.null => Except.ok []
      | some (Json.arr xs) => xs.mapM decodeHit
      | some _ => Except.error "cannot unmarshal into hit list"
    Except.ok { total := total, hits := hs }
  | Json.null => Except.ok { total := 0, hits := [] }
  | _ => Except.error "cannot unmarshal into hits"

/-- json.Unmarshal into searchResponse. -/
def decodeSearchResp : Json → Except String SearchResp
  | Json.obj fs => do
    let took ←
      match jsonLookup "took" fs with
      | none => Except.ok 0
      | some j => decodeNumField j
    let hits ←
      match jsonLookup "hits" fs with
      | none => Except.ok { total := 0, hits := [] }
      | some j => decodeHitsObj j
    Except.ok { took := took, hits := hits }
  | Json.null => Except.ok defaultSearchResp
  | _ => Except.error "cannot unmarshal into searchResponse"

/-- json.Unmarshal into mSearchResponse (middleware.go lines 47-49): the
Responses array. -/
def decodeMSearch : Json → Except String (List SearchResp)
  | Json.obj fs =>
    match jsonLookup "responses" fs with
    | none => Except.ok []
    | some Json.null => Except.ok []
    | some (Json.arr xs) => xs.mapM decodeSearchResp
    | some _ => Except.error "cannot unmarshal into responses"
  | Json.null => Except.ok []
  | _ => Except.error "cannot unmarshal into mSearchResponse"

/-! ## Serialization (json.Marshal of a hit source map). Go marshals a
map with its keys in sorted byte order. -/

/-- Lexicographic order on character lists by code point. -/
def keyLe : List Char → List Char → Bool
  | [], _ => true
  | _ :: _, [] => false
  | a :: as, b :: bs =>
    if a.toNat < b.toNat then true
    else if b.toNat < a.toNat then false
    else keyLe as bs

/-- Insert a field into a key-sorted field list. -/
def insertSorted (p : String × Json) : List (String × Json) → List (String × Json)
  | [] => [p]
  | q :: qs => if keyLe p.1.data q.1.data then p :: q :: qs else q :: insertSorted p qs

/-- Sort the fields of an object by key. -/
def sortFields (fs : List (String × Json)) : List (String × Json) :=
  fs.foldr insertSorted []

/-- Escape a character for a JSON string literal (quote and backslash). -/
def escapeChar (c : Char) : String :=
  if c = Char.ofNat 34 then "\\\"" else if c = '\\' then "\\\\" else Char.toString c

/-- Escape a string for a JSON string literal. -/
def escapeStr (s : String) : String :=
  String.join (s.data.map escapeChar)

/-- Join serialized items with commas. -/
def joinComma : List String → String
  | [] => ""
  | [x] => x
  | x :: xs => x ++ "," ++ joinComma xs

mutual

/-- json.Marshal of a JSON value. -/
def serializeJson : Json → String
  | Json.null => "null"
  | Json.boolJ true => "true"
  | Json.boolJ false => "false"
  | Json.num n => toString n
  | Json.str s => "\"" ++ escapeStr s ++ "\""
  | Json.arr xs => "[" ++ joinComma (serializeList xs) ++ "]"
  | Json.obj fs => "\x7b" ++ joinComma (serializeFields fs) ++ "\x7d"

/-- Serialize the elements of a JSON array. -/
def serializeList : List Json → List String
  | [] => []
  | x :: xs => serializeJson x :: serializeList xs

/-- Serialize the fields of a JSON object. -/
def serializeFields : List (String × Json) → List String
  | [] => []
  | f :: fs => ("\"" ++ escapeStr f.1 ++ "\":" ++ serializeJson f.2) :: serializeFields fs

end

/-! ## Header name constants (middleware.go lines 25-33) -/

def xSearchQuery : String := "X-Search-Query"
def xSearchId : String := "X-Search-Id"
def xSearchFilters : String := "X-Search-Filters"
def xSearchClick : String := "X-Search-Click"
def xSearchClickPosition : String := "X-Search-Click-Position"
def xSearchConversion : String := "X-Search-Conversion"
def xSearchCustomEvent : String := "X-Search-Custom-Event"

/-! ## Recorder (middleware.go lines 51-92) -/

/-- The result of the Recorder middleware: the response the client
observes, and (when the recording goroutine was scheduled) the docId and
original searchId handed to recordResponse. -/
structure RecorderResult where
  response : Response
  recorded : Option (String × String)

/-- Recorder: reads the acl from the request context (500 on absence or
wrong type). When the acl is not Search, or both X-Search-Query and
X-Search-Id are empty, it serves the downstream handler directly.
Otherwise it captures the downstream response, copies the captured
headers, sets X-Search-Id to the effective document id (the client
searchId, or a freshly generated UUID modelled by the fresh parameter),
relays the captured status and body, and schedules recordResponse. -/
def Recorder (fresh : String) (h : Handler) (r : Request) : RecorderResult :=
  match ctxValue r.ctx CtxKey.aclKey with
  | none => { response := writeBackMessage "Internal server error" 500, recorded := none }
  | some v =>
    match v with
    | CtxVal.aclVal reqACL =>
      let searchQuery := headerGet r.headers xSearchQuery
      let searchId := headerGet r.headers xSearchId
      if ¬ reqACL = ACL.search ∨ (searchQuery = "" ∧ searchId = "") then
        { response := h r, recorded := none }
      else
        let docId := if searchId = "" then fresh else searchId
        let captured := h r
        { response :=
            { status := captured.status,
              headers := headerSet captured.headers xSearchId docId,
              body := captured.body },
          recorded := some (docId, searchId) }
    | _ => { response := writeBackMessage "Internal server error" 500, recorded := none }

/-! ## recordResponse (middleware.go lines 95-218) -/

/-- A value stored in the analytics record (a Go map entry). -/
inductive RVal where
  | num (n : Int)
  | str (s : String)
  | boolV (b : Bool)
  | strList (xs : List String)
  | hitsV (xs : List (List (String × String)))
  | kvs (xs : List (String × String))
deriving DecidableEq, Repr

/-- The analytics record: a Go map modelled as an association list with
pairwise-distinct literal keys. -/
abbrev Record := List (String × RVal)

/-- Whether the record carries the key. -/
def hasKey (rec : Record) (k : String) : Bool :=
  List.any rec (fun p => p.1 = k)

/-- Lookup of a record key. -/
def recLookup (rec : Record) (k : String) : Option RVal :=
  (List.find? (fun p => p.1 = k) rec).map (fun p => p.2)

/-- The outcome of the recordResponse goroutine: a record persisted under
the document id, an early return on a parse error (nothing indexed), or a
panic from the unchecked index-context type assertion. -/
inductive RecordOutcome where
  | persisted (docId : String) (record : Record)
  | dropped
  | panicked
deriving DecidableEq, Repr

/-- The parse step of recordResponse (lines 107-124): when the request URI
contains the substring _msearch anywhere, unmarshal the body as an
mSearchResponse and take the first response (the zero value when the
responses array is empty); otherwise unmarshal as a single
searchResponse. An unmarshal error aborts the record. -/
def parseEsResponse (uri : String) (body : Json) : Except String SearchResp :=
  if strContains uri "_msearch" then
    match decodeMSearch body with
    | Except.error e => Except.error e
    | Except.ok rs =>
      match rs with
      | [] => Except.ok defaultSearchResp
      | first :: _ => Except.ok first
  else decodeSearchResp body

/-- The first 10 hits of the response, each as the map with keys id, type
and source (the source marshalled with its keys in sorted order, as
json.Marshal does for a Go map). -/
def topHits (es : SearchResp) : List (List (String × String)) :=
  (es.hits.hits.take 10).map (fun h =>
    [("id", h.hitId), ("type", h.hitType),
     ("source", serializeJson (Json.obj (sortFields h.source)))])

/-- The optional search_filters entry (lines 152-155): present when the
parsed X-Search-Filters header is non-empty. -/
def filtersSegment (r : Request) : Record :=
  let f := parse (headerGet r.headers xSearchFilters)
  if f = [] then [] else [("search_filters", RVal.kvs f)]

/-- The optional location entry (lines 162-167). -/
def locSegment (coordinates : Option String) : Record :=
  match coordinates with
  | some c => [("location", RVal.str c)]
  | none => []

/-- The optional country entry (lines 168-173). -/
def countrySegment (country : Option String) : Record :=
  match country with
  | some c => [("country", RVal.str c)]
  | none => []

/-- The optional click entry (lines 175-183): the X-Search-Click header
parsed by strconv.ParseBool, omitted when empty or invalid. -/
def clickSegment (r : Request) : Record :=
  let sc := headerGet r.headers xSearchClick
  if sc = "" then []
  else
    match goParseBool sc with
    | some b => [("click", RVal.boolV b)]
    | none => []

/-- The optional click_position entry (lines 185-193): the
X-Search-Click-Position header parsed by strconv.Atoi. -/
def posSegment (r : Request) : Record :=
  let sp := headerGet r.headers xSearchClickPosition
  if sp = "" then []
  else
    match goAtoi sp with
    | some n => [("click_position", RVal.num n)]
    | none => []

/-- The optional conversion entry (lines 195-203). -/
def convSegment (r : Request) : Record :=
  let sv := headerGet r.headers xSearchConversion
  if sv = "" then []
  else
    match goParseBool sv with
    | some b => [("conversion", RVal.boolV b)]
    | none => []

/-- The optional custom_events entry (lines 205-208). -/
def customSegment (r : Request) : Record :=
  let ce := parse (headerGet r.headers xSearchCustomEvent)
  if ce = [] then [] else [("custom_events", RVal.kvs ce)]

/-- The analytics record of recordResponse (lines 143-208), built in
source order. The originIndices argument is the context indices read
inside the searchId-empty branch (some exactly when this is an origin
event); coordinates and country are the results of the two geo lookups
(none when the lookup returned an error). -/
def buildRecord (es : SearchResp) (originIndices : Option (List String))
    (r : Request) (now : String) (coordinates country : Option String) : Record :=
  [("took", RVal.num es.took)]
  ++ (match originIndices with
      | some idx =>
        [("indices", RVal.strList idx),
         ("search_query", RVal.str (headerGet r.headers xSearchQuery)),
         ("hits_in_response", RVal.hitsV (topHits es)),
         ("total_hits", RVal.num es.hits.total),
         ("datestamp", RVal.str now)]
        ++ filtersSegment r
      | none => [])
  ++ [("ip", RVal.str r.remoteIp)]
  ++ locSegment coordinates
  ++ countrySegment country
  ++ clickSegment r
  ++ posSegment r
  ++ convSegment r
  ++ customSegment r

/-- recordResponse: parse the captured body (early return on error); when
the request carried no X-Search-Id, read the context indices with an
unchecked type assertion (a panic when absent or of the wrong type) and
build the origin record; otherwise build the follow-up record; persist it
under docId. The now, coordinates and country parameters model
time.Now().Format and the two iplookup calls. -/
def recordResponse (docId searchId : String) (respBody : Json) (r : Request)
    (now : String) (coordinates country : Option String) : RecordOutcome :=
  match parseEsResponse r.requestURI respBody with
  | Except.error _ => RecordOutcome.dropped
  | Except.ok es =>
    if searchId = "" then
      match ctxValue r.ctx CtxKey.indexKey with
      | some (CtxVal.indicesVal idx) =>
        RecordOutcome.persisted docId
          (buildRecord es (some idx) r now coordinates country)
      | _ => RecordOutcome.panicked
    else
      RecordOutcome.persisted docId
        (buildRecord es none r now coordinates country)

/-! ## Users plugin: patchUser / patchUserWithUsername (src/unnamed/part_001
lines 143-216 and 218-290; both handlers share the same validation and
store logic once the username is known). -/

/-- The patch produced by user.GetPatch(): the optional fields of the
request body that are to be updated. A field is some exactly when the
corresponding key is non-nil in the Go patch map. -/
structure Patch where
  acls : Option (List ACL) := none
  categories : Option (List Category) := none
  ops : Option (List Operation) := none
  indices : Option (List String) := none
  email : Option String := none
deriving DecidableEq, Repr

/-- The principals store: documents keyed by username. -/
abbrev Store := List (String × User)

/-- es.getUser(username): the stored principal, none on a lookup error. -/
def storeGet (st : Store) (username : String) : Option User :=
  (List.find? (fun p => p.1 = username) st).map (fun p => p.2)

/-- Modelled from the spec: user.ValidateCategories — every element of
categories must be admitted by some element of the principal's acls via
the fixed category-to-acl table; the error message identifies the first
invalid category. Returns none when all categories are valid. The
function lives in the user package, which is not under src/. -/
def ValidateCategories (u : User) (cats : List Category) : Option String :=
  match List.find? (fun c => ! aclContains u.acls (categoryACL c)) cats with
  | some c =>
    some ("invalid category " ++ quoteChar ++ c.str ++ quoteChar ++
      ": user does not have the required acl")
  | none => none

/-- Apply a patch to a stored principal (the partial document update the
store performs). -/
def applyPatch (u : User) (p : Patch) : User :=
  { u with
    acls := p.acls.getD u.acls,
    categories := p.categories.getD u.categories,
    ops := p.ops.getD u.ops,
    indices := p.indices.getD u.indices,
    email := p.email.getD u.email }

/-- es.patchUser(username, patch): update the stored document, an error
(none) when the principal does not exist. -/
def esPatchUser (st : Store) (username : String) (p : Patch) : Option (User × Store) :=
  match storeGet st username with
  | none => none
  | some u =>
    let u2 := applyPatch u p
    some (u2, List.map (fun q => if q.1 = username then (q.1, u2) else q) st)

/-- The message of the 500 response when the pre-validation user fetch fails. -/
def fetchFailMsg (username : String) : String :=
  "an error occurred while fetching user with username=\"" ++ username ++ "\""

/-- The message of the 404 response when the store patch fails. -/
def patchNotFoundMsg (username : String) : String :=
  "user with \"username\"=\"" ++ username ++ "\" Not Found"

/-- patchUser / patchUserWithUsername, after body read, unmarshal and
GetPatch succeeded (those steps are pure input decoding): when the patch
sets categories but not acls, fetch the stored principal (500 on fetch
error) and validate the new categories against its existing acls,
answering 400 with the validation error and leaving the store unchanged
on failure; otherwise call the store patch (200 on success, 404 on
error). Returns the response and the resulting store. -/
def patchUser (st : Store) (username : String) (patch : Patch) : Response × Store :=
  if patch.acls.isNone ∧ patch.categories.isSome then
    match storeGet st username with
    | none => (writeBackError (fetchFailMsg username) 500, st)
    | some reqUser =>
      match ValidateCategories reqUser (patch.categories.getD []) with
      | some errMsg => (writeBackError errMsg 400, st)
      | none =>
        match esPatchUser st username patch with
        | some q => ({ status := 200, headers := [], body := "" }, q.2)
        | none => (writeBackError (patchNotFoundMsg username) 404, st)
  else
    match esPatchUser st username patch with
    | some q => ({ status := 200, headers := [], body := "" }, q.2)
    | none => (writeBackError (patchNotFoundMsg username) 404, st)

/-! ## Concrete fixtures used by witnesses and counterexamples -/

/-- A concrete downstream handler answering 200. -/
def ok200 : Handler := fun _ =>
  { status := 200, headers := [("Content-Type", "application/json")],
    body := "downstream-body" }

/-- An admin principal whose ops lack Delete and whose acls lack nothing
relevant to validateOp. -/
def adminUser : User :=
  { userId := "alice", isAdmin := true, acls := [ACL.analytics],
    ops := [Operation.read], categories := [], indices := ["*"], email := "" }

/-- A DELETE request authenticated as adminUser, with the user and
operation context values the classifier and authenticator would set. -/
def adminDeleteReq : Request :=
  { method := "DELETE", requestURI := "/_user/alice", headers := [],
    ctx := [(CtxKey.userKey, CtxVal.userVal adminUser),
            (CtxKey.opKey, CtxVal.opVal Operation.delete)],
    remoteIp := "10.0.0.1" }

/-- The spec scenario principal carol with ops restricted to Read. -/
def carolUser : User :=
  { userId := "carol", isAdmin := false, acls := [ACL.analytics],
    ops := [Operation.read], categories := [], indices := ["*"], email := "" }

/-- carol issuing DELETE /_user/carol. -/
def carolDeleteReq : Request :=
  { method := "DELETE", requestURI := "/_user/carol", headers := [],
    ctx := [(CtxKey.userKey, CtxVal.userVal carolUser),
            (CtxKey.opKey, CtxVal.opVal Operation.delete)],
    remoteIp := "10.0.0.2" }

/-- String append acts as list append on the underlying characters. -/
theorem strData_append (a b : String) : (a ++ b).data = a.data ++ b.data := rfl

/-! ## C3: the classifier's method mapping -/

/-- C3: the classifier's method-to-Operation mapping is a total,
deterministic function on HTTP methods: GET maps to Read, POST, PUT and
PATCH map to Write, DELETE maps to Delete, and every other method maps to
Read. -/
theorem classifyOpMapping (m : String) :
    classifyOp m =
      if m = "GET" then Operation.read
      else if m = "POST" ∨ m = "PUT" ∨ m = "PATCH" then Operation.write
      else if m = "DELETE" then Operation.delete
      else Operation.read := by
  unfold classifyOp
  split <;> simp_all

/-! ## C1: no admin bypass in the analytics authorizer -/

/-- C1 counterexample: the admin principal alice (isAdmin = true) lacking
the Delete operation is rejected by validateOp with a 401 response; the
request does not proceed to the downstream handler, so the claimed admin
bypass of the authorizer checks does not hold in this code. -/
theorem adminNotBypassedCounterexample :
    validateOp ok200 adminDeleteReq =
      Outcome.resp (writeBackMessage (opFailMsg adminUser Operation.delete) 401) ∧
    ¬ validateOp ok200 adminDeleteReq = Outcome.resp (ok200 adminDeleteReq) :=
  ⟨rfl, by decide⟩

/-- C1 (amended): in the analytics plugin authorizer, isAdmin confers no
bypass: validateOp and validateACL behave as the pure capability checks
on the principal's ops and acls for every principal, admins included. -/
theorem validateNoAdminBypass (h : Handler) (r : Request) (u : User) (o : Operation)
    (hu : ctxValue r.ctx CtxKey.userKey = some (CtxVal.userVal u))
    (ho : ctxValue r.ctx CtxKey.opKey = some (CtxVal.opVal o)) :
    validateOp h r =
      (if opContains u.ops o then Outcome.resp (h r)
       else Outcome.resp (writeBackMessage (opFailMsg u o) 401)) ∧
    validateACL h r =
      (if aclContains u.acls ACL.analytics then Outcome.resp (h r)
       else Outcome.resp (writeBackMessage (aclFailMsg u) 401)) := by
  unfold validateOp validateACL
  rw [hu, ho]
  exact ⟨rfl, rfl⟩

/-- Witness for C1 (amended) at the concrete admin request. -/
theorem validateNoAdminBypassWitness :
    validateOp ok200 adminDeleteReq =
      Outcome.resp (writeBackMessage (opFailMsg adminUser Operation.delete) 401) := by
  have h := validateNoAdminBypass ok200 adminDeleteReq adminUser Operation.delete rfl rfl
  rw [h.1]
  decide

/-! ## C2: authorizer failures -/

/-- C2 counterexample: carol (ops = Read only) issuing a DELETE is
rejected, but the response status is 401 (http.StatusUnauthorized), not
the 403 the claim states. -/
theorem forbiddenOpStatusCounterexample :
    validateOp ok200 carolDeleteReq =
      Outcome.resp (writeBackMessage (opFailMsg carolUser Operation.delete) 401) ∧
    ¬ (writeBackMessage (opFailMsg carolUser Operation.delete) 401).status = 403 :=
  ⟨rfl, by decide⟩

/-- C2 (amended): whenever an authorizer check fails (the principal lacks
the required Operation in its ops, or the analytics ACL in its acls), the
middleware responds with HTTP status 401 and a message naming the missing
capability (the operation or acl name appears verbatim in the message),
and the downstream handler is not invoked (the outcome is a fixed
response independent of the handler). -/
theorem validateFailWrites401 (h : Handler) (r : Request) (u : User) (o : Operation)
    (hu : ctxValue r.ctx CtxKey.userKey = some (CtxVal.userVal u))
    (ho : ctxValue r.ctx CtxKey.opKey = some (CtxVal.opVal o)) :
    (opContains u.ops o = false →
      validateOp h r = Outcome.resp (writeBackMessage (opFailMsg u o) 401) ∧
      (opFailMsg u o).data =
        ("user with user_id=" ++ u.userId ++ " does not have " ++ quoteChar).data ++
          o.str.data ++ (quoteChar ++ " op access").data) ∧
    (aclContains u.acls ACL.analytics = false →
      validateACL h r = Outcome.resp (writeBackMessage (aclFailMsg u) 401) ∧
      (aclFailMsg u).data =
        ("user with \"user_id\"=\"" ++ u.userId ++ "\" does not have " ++ quoteChar).data ++
          ACL.analytics.str.data ++ (quoteChar ++ " acl").data) := by
  constructor
  · intro hop
    refine ⟨?_, ?_⟩
    · unfold validateOp
      rw [hu, ho]
      simp [hop]
    · simp [opFailMsg, strData_append, List.append_assoc]
  · intro hacl
    refine ⟨?_, ?_⟩
    · unfold validateACL
      rw [hu]
      simp [hacl]
    · simp [aclFailMsg, strData_append, List.append_assoc]

/-- Witness for C2 (amended) at the concrete carol request. -/
theorem validateFailWrites401Witness :
    validateOp ok200 carolDeleteReq =
      Outcome.resp (writeBackMessage (opFailMsg carolUser Operation.delete) 401) :=
  (((validateFailWrites401 ok200 carolDeleteReq carolUser Operation.delete rfl rfl).1)
    (by decide)).1

/-! ## C4, C5, C9: the Recorder middleware -/

/-- Setting a header makes it the value a Get of the same key returns. -/
theorem headerGet_headerSet (hs : Headers) (k v : String) :
    headerGet (headerSet hs k v) k = v := by
  simp [headerGet, headerSet]

/-- A concrete 36-character UUID string, standing for uuid.New().String(). -/
def fresh36 : String := "3b9aee2c-6d7e-4a0e-9d3a-1f2b3c4d5e6f"

/-- A search-classified request carrying X-Search-Query. -/
def searchQueryReq : Request :=
  { method := "GET", requestURI := "/myidx/_search",
    headers := [(xSearchQuery, "shoes")],
    ctx := [(CtxKey.aclKey, CtxVal.aclVal ACL.search)],
    remoteIp := "10.0.0.3" }

/-- A search-classified request carrying neither X-Search-Query nor
X-Search-Id. -/
def plainSearchReq : Request :=
  { method := "GET", requestURI := "/myidx/_search", headers := [],
    ctx := [(CtxKey.aclKey, CtxVal.aclVal ACL.search)],
    remoteIp := "10.0.0.3" }

/-- C4: for a request classified Search that carries a non-empty
X-Search-Query header, the response carries an X-Search-Id header equal
to the client-supplied X-Search-Id when one is present and otherwise to
the freshly generated UUID, and that header value is non-empty. -/
theorem recorderSearchIdHeader (fresh : String) (h : Handler) (r : Request)
    (hacl : ctxValue r.ctx CtxKey.aclKey = some (CtxVal.aclVal ACL.search))
    (hq : ¬ headerGet r.headers xSearchQuery = "")
    (hf : ¬ fresh = "") :
    headerGet (Recorder fresh h r).response.headers xSearchId =
      (if headerGet r.headers xSearchId = "" then fresh
       else headerGet r.headers xSearchId) ∧
    ¬ headerGet (Recorder fresh h r).response.headers xSearchId = "" := by
  have hstep : (Recorder fresh h r).response.headers =
      headerSet (h r).headers xSearchId
        (if headerGet r.headers xSearchId = "" then fresh
         else headerGet r.headers xSearchId) := by
    unfold Recorder
    rw [hacl]
    simp [hq]
  rw [hstep, headerGet_headerSet]
  by_cases hid : headerGet r.headers xSearchId = "" <;> simp [hid, hf]

/-- Witness for C4 at the concrete search request. -/
theorem recorderSearchIdHeaderWitness :
    ¬ headerGet (Recorder fresh36 ok200 searchQueryReq).response.headers xSearchId = "" :=
  (recorderSearchIdHeader fresh36 ok200 searchQueryReq rfl (by decide) (by decide)).2

/-- C5: whenever the downstream handler runs (the context acl is present
and well typed), the client observes exactly the status and body the
handler produced, in both the pass-through and the capture branch. -/
theorem recorderPreservesStatusBody (fresh : String) (h : Handler) (r : Request) (a : ACL)
    (hacl : ctxValue r.ctx CtxKey.aclKey = some (CtxVal.aclVal a)) :
    (Recorder fresh h r).response.status = (h r).status ∧
    (Recorder fresh h r).response.body = (h r).body := by
  unfold Recorder
  rw [hacl]
  dsimp only
  split <;> simp

/-- Witness for C5 at the concrete search request. -/
theorem recorderPreservesStatusBodyWitness :
    (Recorder fresh36 ok200 searchQueryReq).response.status = (ok200 searchQueryReq).status ∧
    (Recorder fresh36 ok200 searchQueryReq).response.body = (ok200 searchQueryReq).body :=
  recorderPreservesStatusBody fresh36 ok200 searchQueryReq ACL.search rfl

/-- C9: a search-classified request with neither X-Search-Query nor
X-Search-Id is served by the downstream handler directly: the response is
exactly the handler's (no X-Search-Id header is added) and no analytics
recording is scheduled. -/
theorem recorderPassthroughNoSearchHeaders (fresh : String) (h : Handler) (r : Request)
    (hacl : ctxValue r.ctx CtxKey.aclKey = some (CtxVal.aclVal ACL.search))
    (hq : headerGet r.headers xSearchQuery = "")
    (hid : headerGet r.headers xSearchId = "") :
    Recorder fresh h r = { response := h r, recorded := none } := by
  unfold Recorder
  rw [hacl]
  simp [hq, hid]

/-- Witness for C9 at the concrete header-free search request. -/
theorem recorderPassthroughWitness :
    Recorder fresh36 ok200 plainSearchReq =
      { response := ok200 plainSearchReq, recorded := none } :=
  recorderPassthroughNoSearchHeaders fresh36 ok200 plainSearchReq rfl rfl rfl

/-! ## C8: missing or wrongly typed context values -/

/-- A request whose user context value has a dynamic type other than
*user.User. -/
def wrongTypeReq : Request :=
  { method := "GET", requestURI := "/_analytics", headers := [],
    ctx := [(CtxKey.userKey, CtxVal.otherVal "permission-token"),
            (CtxKey.opKey, CtxVal.opVal Operation.read)],
    remoteIp := "10.0.0.4" }

/-- An origin search request whose context lacks the indices value. -/
def noIndicesReq : Request :=
  { method := "GET", requestURI := "/myidx/_search",
    headers := [(xSearchQuery, "shoes")], ctx := [],
    remoteIp := "10.0.0.4" }

/-- C8 evaluation at the failing inputs: a wrongly typed user context
value makes validateOp panic through its unchecked type assertion rather
than answer an internal-error response, and recordResponse panics on the
unchecked assertion of the absent indices context value for an origin
search. -/
theorem contextMisusePanics :
    validateOp ok200 wrongTypeReq = Outcome.panicked ∧
    recordResponse "doc1" "" (Json.obj []) noIndicesReq "2018/01/01 00:00:00" none none =
      RecordOutcome.panicked :=
  ⟨rfl, rfl⟩

/-! ## C6: category patch validation -/

/-- C6: a patch that sets categories but not acls is validated against
the stored principal's existing acls before the store patch is called: on
a validation failure the handler answers 400 with a message identifying
the first invalid category, and the store is unchanged. -/
theorem patchCategoriesValidated (st : Store) (username : String) (patch : Patch)
    (cats : List Category) (u : User) (c : Category)
    (hacls : patch.acls = none)
    (hcats : patch.categories = some cats)
    (hget : storeGet st username = some u)
    (hbad : List.find? (fun c => ! aclContains u.acls (categoryACL c)) cats = some c) :
    (patchUser st username patch).1.status = 400 ∧
    strContains (patchUser st username patch).1.body c.str = true ∧
    (patchUser st username patch).2 = st := by
  have hcall : patchUser st username patch =
      (writeBackError ("invalid category " ++ quoteChar ++ c.str ++ quoteChar ++
        ": user does not have the required acl") 400, st) := by
    unfold patchUser ValidateCategories
    simp [hacls, hcats, hget, hbad]
  refine ⟨?_, ?_, ?_⟩
  · rw [hcall]
    rfl
  · rw [hcall]
    show strContains ("invalid category " ++ quoteChar ++ c.str ++ quoteChar ++
      ": user does not have the required acl") c.str = true
    cases c <;> decide
  · rw [hcall]

/-- A principal whose acls admit only search categories. -/
def daveUser : User :=
  { userId := "dave", isAdmin := false, acls := [ACL.search],
    ops := [Operation.read], categories := [Category.catSearch],
    indices := ["*"], email := "" }

/-- A store holding only dave. -/
def daveStore : Store := [("dave", daveUser)]

/-- A patch setting categories without acls, where the category user is
not admitted by dave's acls. -/
def catPatch : Patch := { categories := some [Category.catUser] }

/-- Witness for C6 at the concrete spec scenario. -/
theorem patchCategoriesValidatedWitness :
    (patchUser daveStore "dave" catPatch).1.status = 400 ∧
    (patchUser daveStore "dave" catPatch).2 = daveStore := by
  have h := patchCategoriesValidated daveStore "dave" catPatch [Category.catUser]
    daveUser Category.catUser rfl rfl rfl (by decide)
  exact ⟨h.1, h.2.2⟩

/-! ## C7: origin fields of the analytics record -/

/-- The location segment holds no key but location. -/
theorem any_locSegment_false (co : Option String) (k : String)
    (hk : ¬ ("location" : String) = k) :
    List.any (locSegment co) (fun p => p.1 = k) = false := by
  cases co <;> simp [locSegment, hk]

/-- The country segment holds no key but country. -/
theorem any_countrySegment_false (cn : Option String) (k : String)
    (hk : ¬ ("country" : String) = k) :
    List.any (countrySegment cn) (fun p => p.1 = k) = false := by
  cases cn <;> simp [countrySegment, hk]

/-- The click segment holds no key but click. -/
theorem any_clickSegment_false (r : Request) (k : String)
    (hk : ¬ ("click" : String) = k) :
    List.any (clickSegment r) (fun p => p.1 = k) = false := by
  unfold clickSegment
  dsimp only
  split
  · rfl
  · split <;> simp [hk]

/-- The click_position segment holds no key but click_position. -/
theorem any_posSegment_false (r : Request) (k : String)
    (hk : ¬ ("click_position" : String) = k) :
    List.any (posSegment r) (fun p => p.1 = k) = false := by
  unfold posSegment
  dsimp only
  split
  · rfl
  · split <;> simp [hk]

/-- The conversion segment holds no key but conversion. -/
theorem any_convSegment_false (r : Request) (k : String)
    (hk : ¬ ("conversion" : String) = k) :
    List.any (convSegment r) (fun p => p.1 = k) = false := by
  unfold convSegment
  dsimp only
  split
  · rfl
  · split <;> simp [hk]

/-- The custom_events segment holds no key but custom_events. -/
theorem any_customSegment_false (r : Request) (k : String)
    (hk : ¬ ("custom_events" : String) = k) :
    List.any (customSegment r) (fun p => p.1 = k) = false := by
  unfold customSegment
  dsimp only
  split <;> simp [hk]

/-- The filters segment holds search_filters exactly when the parsed
filters header is non-empty. -/
theorem any_filtersSegment (r : Request) (k : String) :
    List.any (filtersSegment r) (fun p => p.1 = k) =
      (decide (¬ parse (headerGet r.headers xSearchFilters) = []) &&
        decide (("search_filters" : String) = k)) := by
  unfold filtersSegment
  dsimp only
  split
  · rename_i hf
    simp [hf]
  · rename_i hf
    simp [hf]

/-- The record carries indices exactly for origin events. -/
theorem hasKey_buildRecord_indices (es : SearchResp) (oi : Option (List String))
    (r : Request) (now : String) (co cn : Option String) :
    hasKey (buildRecord es oi r now co cn) "indices" = oi.isSome := by
  unfold hasKey buildRecord
  cases oi <;>
    simp +decide [List.any_append, any_locSegment_false, any_countrySegment_false,
      any_clickSegment_false, any_posSegment_false, any_convSegment_false,
      any_customSegment_false, any_filtersSegment]

/-- The record carries search_query exactly for origin events. -/
theorem hasKey_buildRecord_query (es : SearchResp) (oi : Option (List String))
    (r : Request) (now : String) (co cn : Option String) :
    hasKey (buildRecord es oi r now co cn) "search_query" = oi.isSome := by
  unfold hasKey buildRecord
  cases oi <;>
    simp +decide [List.any_append, any_locSegment_false, any_countrySegment_false,
      any_clickSegment_false, any_posSegment_false, any_convSegment_false,
      any_customSegment_false, any_filtersSegment]

/-- The record carries hits_in_response exactly for origin events. -/
theorem hasKey_buildRecord_hits (es : SearchResp) (oi : Option (List String))
    (r : Request) (now : String) (co cn : Option String) :
    hasKey (buildRecord es oi r now co cn) "hits_in_response" = oi.isSome := by
  unfold hasKey buildRecord
  cases oi <;>
    simp +decide [List.any_append, any_locSegment_false, any_countrySegment_false,
      any_clickSegment_false, any_posSegment_false, any_convSegment_false,
      any_customSegment_false, any_filtersSegment]

/-- The record carries total_hits exactly for origin events. -/
theorem hasKey_buildRecord_total (es : SearchResp) (oi : Option (List String))
    (r : Request) (now : String) (co cn : Option String) :
    hasKey (buildRecord es oi r now co cn) "total_hits" = oi.isSome := by
  unfold hasKey buildRecord
  cases oi <;>
    simp +decide [List.any_append, any_locSegment_false, any_countrySegment_false,
      any_clickSegment_false, any_posSegment_false, any_convSegment_false,
      any_customSegment_false, any_filtersSegment]

/-- The record carries datestamp exactly for origin events. -/
theorem hasKey_buildRecord_datestamp (es : SearchResp) (oi : Option (List String))
    (r : Request) (now : String) (co cn : Option String) :
    hasKey (buildRecord es oi r now co cn) "datestamp" = oi.isSome := by
  unfold hasKey buildRecord
  cases oi <;>
    simp +decide [List.any_append, any_locSegment_false, any_countrySegment_false,
      any_clickSegment_false, any_posSegment_false, any_convSegment_false,
      any_customSegment_false, any_filtersSegment]

/-- The record carries search_filters exactly for origin events with a
non-empty parsed filters header. -/
theorem hasKey_buildRecord_filters (es : SearchResp) (oi : Option (List String))
    (r : Request) (now : String) (co cn : Option String) :
    hasKey (buildRecord es oi r now co cn) "search_filters" =
      (oi.isSome && decide (¬ parse (headerGet r.headers xSearchFilters) = [])) := by
  unfold hasKey buildRecord
  cases oi <;>
    simp +decide [List.any_append, any_locSegment_false, any_countrySegment_false,
      any_clickSegment_false, any_posSegment_false, any_convSegment_false,
      any_customSegment_false, any_filtersSegment]

/-- C7: a persisted analytics record carries the origin fields indices,
search_query, hits_in_response, total_hits and datestamp exactly when the
request carried no X-Search-Id (searchId empty), and search_filters
exactly when additionally the parsed X-Search-Filters header is
non-empty; for follow-up requests none of these fields are written. -/
theorem recordOriginFieldsIff (docId searchId : String) (body : Json) (r : Request)
    (now : String) (co cn : Option String) (d : String) (rec : Record)
    (hp : recordResponse docId searchId body r now co cn =
      RecordOutcome.persisted d rec) :
    (hasKey rec "indices" = true ↔ searchId = "") ∧
    (hasKey rec "search_query" = true ↔ searchId = "") ∧
    (hasKey rec "hits_in_response" = true ↔ searchId = "") ∧
    (hasKey rec "total_hits" = true ↔ searchId = "") ∧
    (hasKey rec "datestamp" = true ↔ searchId = "") ∧
    (hasKey rec "search_filters" = true ↔
      (searchId = "" ∧ ¬ parse (headerGet r.headers xSearchFilters) = [])) := by
  unfold recordResponse at hp
  split at hp
  · simp at hp
  · by_cases hsid : searchId = ""
    · rw [if_pos hsid] at hp
      split at hp
      · simp only [RecordOutcome.persisted.injEq] at hp
        obtain ⟨hd, hrec⟩ := hp
        subst hrec
        subst hsid
        simp [hasKey_buildRecord_indices, hasKey_buildRecord_query,
          hasKey_buildRecord_hits, hasKey_buildRecord_total,
          hasKey_buildRecord_datestamp, hasKey_buildRecord_filters]
      · simp at hp
    · rw [if_neg hsid] at hp
      simp only [RecordOutcome.persisted.injEq] at hp
      obtain ⟨hd, hrec⟩ := hp
      subst hrec
      simp [hasKey_buildRecord_indices, hasKey_buildRecord_query,
        hasKey_buildRecord_hits, hasKey_buildRecord_total,
        hasKey_buildRecord_datestamp, hasKey_buildRecord_filters, hsid]

/-- A single-search response body with took 7, total 2 and no hits. -/
def simpleBody : Json :=
  Json.obj [("took", Json.num 7), ("hits", Json.obj [("total", Json.num 2)])]

/-- An origin search request with query shoes and indices myidx. -/
def originReq : Request :=
  { method := "GET", requestURI := "/myidx/_search",
    headers := [(xSearchQuery, "shoes")],
    ctx := [(CtxKey.indexKey, CtxVal.indicesVal ["myidx"])],
    remoteIp := "10.0.0.5" }

/-- The analytics record recordResponse persists for originReq. -/
def originRec : Record :=
  [("took", RVal.num 7), ("indices", RVal.strList ["myidx"]),
   ("search_query", RVal.str "shoes"), ("hits_in_response", RVal.hitsV []),
   ("total_hits", RVal.num 2), ("datestamp", RVal.str "2018/01/01 00:00:00"),
   ("ip", RVal.str "10.0.0.5")]

/-- Witness for C7 at the concrete origin request. -/
theorem recordOriginFieldsIffWitness :
    hasKey originRec "search_query" = true ↔ ("" : String) = "" :=
  (recordOriginFieldsIff "doc1" "" simpleBody originReq "2018/01/01 00:00:00"
    none none "doc1" originRec (by decide)).2.1

/-! ## C10: the multi-search branch selection and empty responses -/

/-- A multi-search envelope with an empty responses array. -/
def msearchEmptyBody : Json := Json.obj [("responses", Json.arr [])]

/-- A body that is a multi-search envelope whose first response took 5ms;
read as a single search response it yields only zero values, so the two
parse branches are observably different on it. -/
def took5Envelope : Json :=
  Json.obj [("responses", Json.arr [Json.obj [("took", Json.num 5)]])]

/-- A follow-up request (carrying an X-Search-Id) with the given URI. -/
def mkFollowReq (uri : String) : Request :=
  { method := "GET", requestURI := uri,
    headers := [(xSearchId, "prev-search-id")], ctx := [],
    remoteIp := "10.0.0.6" }

/-- C10: the recorder takes the multi-search parse branch whenever the
request URI contains the substring _msearch anywhere (an empty responses
envelope then persists a record with zero took and no hits rather than
being dropped); in particular a URI whose index name contains _msearch
takes the multi-search branch (took 5 from the envelope) while the same
body under a URI without _msearch parses as a single response (took 0). -/
theorem msearchBranchAndEmptyResponses :
    (∀ uri : String, strContains uri "_msearch" = true →
      recordResponse "prev-search-id" "prev-search-id" msearchEmptyBody
        (mkFollowReq uri) "2018/01/01 00:00:00" none none =
        RecordOutcome.persisted "prev-search-id"
          [("took", RVal.num 0), ("ip", RVal.str "10.0.0.6")]) ∧
    recordResponse "prev-search-id" "prev-search-id" took5Envelope
      (mkFollowReq "/idx_msearchname/_search") "2018/01/01 00:00:00" none none =
      RecordOutcome.persisted "prev-search-id"
        [("took", RVal.num 5), ("ip", RVal.str "10.0.0.6")] ∧
    recordResponse "prev-search-id" "prev-search-id" took5Envelope
      (mkFollowReq "/idx/_search") "2018/01/01 00:00:00" none none =
      RecordOutcome.persisted "prev-search-id"
        [("took", RVal.num 0), ("ip", RVal.str "10.0.0.6")] := by
  refine ⟨?_, by decide, by decide⟩
  intro uri hc
  unfold recordResponse parseEsResponse
  simp only [mkFollowReq]
  rw [if_pos hc]
  rfl

/-- Witness for C10: a URI containing _msearch only in its query string
still selects the multi-search branch and persists the empty-envelope
record. -/
theorem msearchBranchAndEmptyResponsesWitness :
    recordResponse "prev-search-id" "prev-search-id" msearchEmptyBody
      (mkFollowReq "/myidx/_search?probe=_msearch") "2018/01/01 00:00:00" none none =
      RecordOutcome.persisted "prev-search-id"
        [("took", RVal.num 0), ("ip", RVal.str "10.0.0.6")] :=
  msearchBranchAndEmptyResponses.1 "/myidx/_search?probe=_msearch" (by decide)

end Arc
